import Mathlib

/-!
Verification of the exposure-notification service
(`src/services/ExposureNotificationService/ExposureNotificationService.ts`)
against its natural-language specification.

The TypeScript service is shallowly embedded: every stateful method becomes a
pure Lean function from an explicit environment (the oracles for the backend,
the EN framework bridge, storage and the clock) and the current
`ExposureStatus` to the resulting `ExposureStatus`.  Exceptions thrown by a
collaborator are modelled with `Except` / `Option` results in the environment.
JavaScript numbers that the code only adds, divides and compares are modelled
as `ℚ` (durations) or `ℤ` (timestamps, periods).
-/

namespace CovidAlert

/-! ## Dates and the clock

`shared/date-fns` is not part of the sources under verification, so the two
day-difference helpers are modelled from the spec.  A `Clock` gives the two
calendar-day projections of a millisecond timestamp: the UTC calendar day and
the device-local calendar day (they differ by the timezone offset applied
before truncating to a date). -/

structure Clock where
  msToUtcDay : ℤ → ℤ
  msToLocalDay : ℤ → ℤ

/-- Modelled from the spec: `daysBetweenUTC(a, b)` is the number of UTC
calendar days from `a` to `b` ("today is on/after the cycle end date in UTC"
is `daysBetweenUTC(today, cycleEndsAt) <= 0`). -/
def daysBetweenUTC (c : Clock) (a b : ℤ) : ℤ :=
  c.msToUtcDay b - c.msToUtcDay a

/-- Modelled from the spec: `daysBetween(a, b)` is the number of device-local
calendar days from `a` to `b` ("using local device time for this
comparison"). -/
def daysBetween (c : Clock) (a b : ℤ) : ℤ :=
  c.msToLocalDay b - c.msToLocalDay a

/-- Model of `HOURS_PER_PERIOD = 24`. -/
def HOURS_PER_PERIOD : ℤ := 24

/-- Model of `EXPOSURE_NOTIFICATION_CYCLE = 14`. -/
def EXPOSURE_NOTIFICATION_CYCLE : ℤ := 14

/-- Model of `MINIMUM_REMINDER_INTERVAL_MINUTES = 180`. -/
def MINIMUM_REMINDER_INTERVAL_MINUTES : ℤ := 180

/-- Modelled from the spec: a `Period` is the "integer index of a fixed
24-hour window since epoch", so `periodSinceEpoch(date, HOURS_PER_PERIOD)` is
the floor of the millisecond timestamp divided by 24h in milliseconds. -/
def periodSinceEpoch (nowMs : ℤ) : ℤ :=
  Int.fdiv nowMs (HOURS_PER_PERIOD * 3600000)

/-! ## Summaries, statuses, checkpoints -/

/-- Model of `ExposureSummary` from the EN framework bridge: only the fields the
service reads are modelled.  `attenuationDurations` holds the
per-attenuation-bucket durations (integer seconds on iOS, integer minutes on
Android, as the EN framework reports them); `lastExposureTimestamp` is a
millisecond timestamp.  The framework always supplies the three standard
buckets; the model reads a missing bucket as `0`. -/
structure ExposureSummary where
  attenuationDurations : List ℤ
  lastExposureTimestamp : ℤ
deriving DecidableEq

/-- The value stored in `lastChecked.period`.  The declared TypeScript type is
`number`, but `finalize`'s second argument is `any` and the call sites pass it
a whole `{period, timestamp}` object, so a faithful model must allow an
object (and `null`) to end up in the `period` slot. -/
inductive PeriodValue where
  | num : ℤ → PeriodValue
  | nullv : PeriodValue
  | obj : PeriodValue → ℤ → PeriodValue
deriving DecidableEq

/-- The `lastChecked` checkpoint: `{period, timestamp}`. -/
structure LastChecked where
  period : PeriodValue
  timestamp : ℤ
deriving DecidableEq

/-- Model of `ExposureStatus`, as the tagged union the spec describes (the source uses
one object type with optional fields; fields outside the active variant are
dropped, as the spec's data-model section prescribes). -/
inductive ExposureStatus where
  | monitoring (lastChecked : Option LastChecked)
  | exposed (summary : ExposureSummary) (notificationSent : Bool)
      (lastChecked : Option LastChecked)
  | diagnosed (needsSubmission : Bool) (submissionLastCompletedAt : Option ℤ)
      (uploadReminderLastSentAt : Option ℤ) (cycleStartsAt : ℤ)
      (cycleEndsAt : ℤ) (lastChecked : Option LastChecked)
deriving DecidableEq

/-- The `lastChecked` field of any variant. -/
def statusLastChecked : ExposureStatus → Option LastChecked
  | .monitoring lc => lc
  | .exposed _ _ lc => lc
  | .diagnosed _ _ _ _ _ lc => lc

/-- Is the status the `Monitoring` variant? -/
def isMonitoring : ExposureStatus → Bool
  | .monitoring _ => true
  | _ => false

/-- Is the status the `Diagnosed` variant? -/
def isDiagnosed : ExposureStatus → Bool
  | .diagnosed _ _ _ _ _ _ => true
  | _ => false

/-- The summary carried by an `Exposed` status, if any. -/
def statusSummary : ExposureStatus → Option ExposureSummary
  | .exposed s _ _ => some s
  | _ => none

/-! ## Filtering and ranking summaries (`summariesContainingExposures`) -/

/-- The platform the app runs on (`Platform.OS`). -/
inductive Os where
  | ios
  | android
deriving DecidableEq

/-- The combined immediate + near attenuation-bucket durations of a summary,
converted to minutes and rounded: on iOS the buckets are seconds, so the
source computes `Math.round(a[0]/60 + a[1]/60)`, which for integer buckets is
`⌊((a0 + a1)·2 + 60) / 120⌋` (see `exposureDurationRoundedMinutes_ios`); on
Android the buckets are already minutes and rounding an integer is the
identity. -/
def exposureDurationRoundedMinutes (os : Os) (summary : ExposureSummary) : ℤ :=
  let durationAtImmediate := summary.attenuationDurations.getD 0 0
  let durationAtNear := summary.attenuationDurations.getD 1 0
  match os with
  | .ios => Int.fdiv ((durationAtImmediate + durationAtNear) * 2 + 60) 120
  | .android => durationAtImmediate + durationAtNear

/-- Model of `summaryExceedsMinimumMinutes`: the rounded combined duration compared
against the threshold.  The source returns
`minimumExposureDurationMinutes && Math.round(...) >= min`, so a zero (falsy)
threshold rejects every summary. -/
def summaryExceedsMinimumMinutes (os : Os) (summary : ExposureSummary)
    (minimumExposureDurationMinutes : ℤ) : Bool :=
  minimumExposureDurationMinutes ≠ 0 ∧
    minimumExposureDurationMinutes ≤ exposureDurationRoundedMinutes os summary

/-- Insert into a list sorted descending by `lastExposureTimestamp`
(strict comparison, so the insertion is stable, as the JS engine's sort is). -/
def insertByTimestampDesc (a : ExposureSummary) :
    List ExposureSummary → List ExposureSummary
  | [] => [a]
  | b :: bs =>
    if b.lastExposureTimestamp < a.lastExposureTimestamp then a :: b :: bs
    else b :: insertByTimestampDesc a bs

/-- Sort descending by `lastExposureTimestamp`: the model of the JS
`sort((s1, s2) => s2.lastExposureTimestamp - s1.lastExposureTimestamp)`. -/
def sortByTimestampDesc : List ExposureSummary → List ExposureSummary
  | [] => []
  | a :: as => insertByTimestampDesc a (sortByTimestampDesc as)

/-- Model of `summariesContainingExposures`: filter by the minimum-duration threshold,
then sort descending by last-exposure timestamp. -/
def summariesContainingExposures (os : Os)
    (minimumExposureDurationMinutes : ℤ) (summaries : List ExposureSummary) :
    List ExposureSummary :=
  sortByTimestampDesc
    (summaries.filter fun summary =>
      summaryExceedsMinimumMinutes os summary minimumExposureDurationMinutes)

/-! ## The period key fetcher (`keysSinceLastFetch`) and `getKeys` -/

/-- One yielded element of the key-fetch sequence: `{keysFileUrl, period}`. -/
structure KeyFile where
  keysFileUrl : String
  period : ℤ
deriving DecidableEq

/-- The environment of one exposure check: the clock, the current instant, and
the oracles for every collaborator call the check makes.  A `none` / `.error`
oracle result models the collaborator throwing. -/
structure CheckEnv where
  clock : Clock
  now : ℤ
  platform : Os
  minimumExposureDurationMinutes : ℤ
  /-- Model of `backendInterface.retrieveDiagnosisKeys(period)`; `none` = throws. -/
  retrieveDiagnosisKeys : ℤ → Option String
  /-- Model of `exposureNotification.getPendingExposureSummary()`; `.error` = throws,
  `.ok none` = resolves to `null`. -/
  pendingSummaries : Except Unit (Option (List ExposureSummary))
  /-- Model of `exposureNotification.detectExposure(config, keys)` as a function of the
  key-file list; `.error` = throws. -/
  detectExposure : List String → Except Unit (List ExposureSummary)
  /-- The `lastExposureTimestamp` side-channel value in `AsyncStorage`. -/
  storedLastExposureTimestamp : Option ℤ

/-- The body iterations of the `while (runningPeriod > lastCheckedPeriod)`
loop of `keysSinceLastFetch`, with the iteration count made explicit so the
definition is structurally recursive (and hence evaluable by `decide`):
fetch each period from `running` downwards, catching and skipping per-period
failures. -/
def keysLoopGo (fetch : ℤ → Option String) : ℕ → ℤ → List KeyFile
  | 0, _ => []
  | n + 1, running =>
    (match fetch running with
      | some keysFileUrl => [⟨keysFileUrl, running⟩]
      | none => []) ++ keysLoopGo fetch n (running - 1)

/-- The `while (runningPeriod > lastCheckedPeriod)` loop: it runs exactly
`(running - bound).toNat` iterations, one per period from `running` down to
`bound + 1`. -/
def keysLoop (fetch : ℤ → Option String) (bound : ℤ) (running : ℤ) :
    List KeyFile :=
  keysLoopGo fetch (running - bound).toNat running

/-- The single-batch bootstrap fetch (`retrieveDiagnosisKeys(0)`, yielded with
the current period). -/
def keysBootstrap (env : CheckEnv) : List KeyFile :=
  match env.retrieveDiagnosisKeys 0 with
  | some keysFileUrl => [⟨keysFileUrl, periodSinceEpoch env.now⟩]
  | none => []

/-- Model of `keysSinceLastFetch(_lastCheckedPeriod)`, with the generator drained to a
list.  `!_lastCheckedPeriod` is JavaScript truthiness: `undefined`, `null`
and `0` all take the bootstrap branch.  A checkpoint that is an object (see
`PeriodValue.obj`) is truthy, but `Math.max(obj - 1, ...)` is `NaN` and
`runningPeriod > NaN` is false, so the loop yields nothing. -/
def keysSinceLastFetch (env : CheckEnv) (lastCheckedPeriod : Option PeriodValue) :
    List KeyFile :=
  let runningPeriod := periodSinceEpoch env.now
  match lastCheckedPeriod with
  | none => keysBootstrap env
  | some .nullv => keysBootstrap env
  | some (.num n) =>
    if n = 0 then keysBootstrap env
    else keysLoop env.retrieveDiagnosisKeys
      (max (n - 1) (runningPeriod - EXPOSURE_NOTIFICATION_CYCLE)) runningPeriod
  | some (.obj _ _) => []

/-- Model of `getKeys(lastChecked)`: drain the generator, collecting the key-file URLs.
The source also folds the maximum period seen into a local variable
`lastCheckedPeriod` (see `getKeysTracked`), but returns the *original*
`lastChecked` argument unchanged. -/
def getKeys (env : CheckEnv) (lastChecked : Option LastChecked) :
    List String × Option LastChecked :=
  ((keysSinceLastFetch env (lastChecked.map (·.period))).map (·.keysFileUrl),
    lastChecked)

/-- The final value of the local variable
`lastCheckedPeriod = Math.max(lastCheckedPeriod || 0, period)` inside
`getKeys`'s drain loop, for a numeric (or absent) incoming checkpoint: the
maximum period actually seen among the fetched key files.  The source
computes this value and never uses it. -/
def getKeysTracked (env : CheckEnv) (lastChecked : Option LastChecked) : ℤ :=
  (keysSinceLastFetch env (lastChecked.map (·.period))).foldl
    (fun acc kf => max acc kf.period)
    (match lastChecked with
      | some ⟨.num n, _⟩ => n
      | _ => 0)

/-! ## `finalize` and the transition helpers -/

/-- Model of `lastChecked.period` with JavaScript `|| 0` applied: `0` and `null` are
falsy and default to `0`; an object is truthy and is kept. -/
def jsPeriodOr0 : PeriodValue → PeriodValue
  | .num n => .num n
  | .nullv => .num 0
  | .obj p t => .obj p t

/-- The default period `finalize` commits when it is not handed one:
`status.lastChecked?.period || previousExposureStatus.lastChecked?.period || 0`
(no call site puts a `lastChecked` into the update object, so only the
previous status contributes). -/
def defaultPeriod (st : ExposureStatus) : PeriodValue :=
  match statusLastChecked st with
  | some lc => jsPeriodOr0 lc.period
  | none => .num 0

/-- The second argument of `finalize` (`lastCheckedPeriod: number | undefined`
by declaration, but `any` in practice): `undefined` takes the defaulting
branch; anything else — including `null` and a `{period, timestamp}` object —
is stored into `lastChecked.period` as-is. -/
inductive FinalizeArg where
  | undef : FinalizeArg
  | nullv : FinalizeArg
  | obj : LastChecked → FinalizeArg
deriving DecidableEq

/-- The period `finalize` stores for a given argument and previous status. -/
def finalizePeriod (st : ExposureStatus) : FinalizeArg → PeriodValue
  | .undef => defaultPeriod st
  | .nullv => .nullv
  | .obj lc => .obj lc.period lc.timestamp

/-- Model of `finalize({})`: keep the current variant and fields, stamp a fresh
`lastChecked = {timestamp: now, period: default}`. -/
def finalizeNoop (env : CheckEnv) (st : ExposureStatus) : ExposureStatus :=
  let lc := some ⟨defaultPeriod st, env.now⟩
  match st with
  | .monitoring _ => .monitoring lc
  | .exposed s n _ => .exposed s n lc
  | .diagnosed ns slc url cs ce _ => .diagnosed ns slc url cs ce lc

/-- Model of `finalize({needsSubmission})`, reached only from the `Diagnosed` branch of
`updateExposure`: merge the flag, stamp a fresh `lastChecked`. -/
def finalizeNeedsSubmission (env : CheckEnv) (st : ExposureStatus)
    (b : Bool) : ExposureStatus :=
  match st with
  | .diagnosed _ slc url cs ce _ =>
    .diagnosed b slc url cs ce (some ⟨defaultPeriod st, env.now⟩)
  | other => finalizeNoop env other

/-- Model of `setToMonitoring` = `finalize({type: Monitoring})`. -/
def setToMonitoring (env : CheckEnv) (st : ExposureStatus) : ExposureStatus :=
  .monitoring (some ⟨defaultPeriod st, env.now⟩)

/-- Model of `selectExposureSummary(nextSummary)`: keep the current summary when the
status is already `Exposed`, otherwise use the incoming one. -/
def selectExposureSummary (st : ExposureStatus) (nextSummary : ExposureSummary) :
    ExposureSummary :=
  match st with
  | .exposed currentSummary _ _ => currentSummary
  | _ => nextSummary

/-- Model of `setToExposed(summary, lastCheckedPeriod)` =
`finalize({type: Exposed, summary: selectExposureSummary(summary)},
lastCheckedPeriod)`.  The merge keeps a previous `Exposed`'s
`notificationSent`; from any other variant the flag is absent (falsy). -/
def setToExposed (env : CheckEnv) (st : ExposureStatus)
    (summary : ExposureSummary) (arg : FinalizeArg) : ExposureStatus :=
  let notificationSent := match st with
    | .exposed _ n _ => n
    | _ => false
  .exposed (selectExposureSummary st summary) notificationSent
    (some ⟨finalizePeriod st arg, env.now⟩)

/-! ## Submission bookkeeping and the maintenance step -/

/-- Model of `calculateNeedsSubmission()`: `false` when not `Diagnosed` or when the
cycle has ended in UTC; `true` when no submission ever completed
(`!submissionLastCompletedAt`, so a stored `0` counts as absent); `true` when
the last completed submission lies on an earlier UTC calendar day. -/
def calculateNeedsSubmission (env : CheckEnv) (st : ExposureStatus) : Bool :=
  match st with
  | .diagnosed _ submissionLastCompletedAt _ _ cycleEndsAt _ =>
    if daysBetweenUTC env.clock env.now cycleEndsAt ≤ 0 then false
    else
      match submissionLastCompletedAt with
      | none => true
      | some t =>
        if t = 0 then true
        else decide (0 < daysBetweenUTC env.clock t env.now)
  | _ => false

/-- Model of `getStoredLastExposureTimestamp()`: `undefined` unless `Exposed`; then the
`AsyncStorage` side-channel value, else the summary's
`lastExposureTimestamp` when truthy (non-zero), else today (which the source
also writes back to storage). -/
def getStoredLastExposureTimestamp (env : CheckEnv) (st : ExposureStatus) :
    Option ℤ :=
  match st with
  | .exposed summary _ _ =>
    match env.storedLastExposureTimestamp with
    | some t => some t
    | none =>
      if summary.lastExposureTimestamp ≠ 0 then some summary.lastExposureTimestamp
      else some env.now
  | _ => none

/-- Model of `updateExposure()`: the status-machine maintenance step.
`Diagnosed`: reset to `Monitoring` once the cycle has ended *in device-local
time* (`daysBetween(today, cycleEndsAt) <= 0`), else recompute
`needsSubmission`.  `Exposed`: reset to `Monitoring` once the stored
last-exposure timestamp is ≥ 14 days old in device-local time.
`Monitoring`: no change. -/
def updateExposure (env : CheckEnv) (st : ExposureStatus) : ExposureStatus :=
  match st with
  | .diagnosed _ _ _ _ cycleEndsAt _ =>
    if daysBetween env.clock env.now cycleEndsAt ≤ 0 then
      setToMonitoring env st
    else
      finalizeNeedsSubmission env st (calculateNeedsSubmission env st)
  | .exposed _ _ _ =>
    match getStoredLastExposureTimestamp env st with
    | none => st
    | some lastExposureTimestamp =>
      if EXPOSURE_NOTIFICATION_CYCLE ≤ daysBetween env.clock lastExposureTimestamp env.now then
        setToMonitoring env st
      else st
  | .monitoring _ => st

/-! ## The check pipeline -/

/-- Model of `getSummariesFromEnFramework(config)`: use a non-empty pending summary set
when the platform has one (stamping a fresh current-period checkpoint
object); otherwise run `updateExposure`, drain `getKeys` *on the
pre-maintenance checkpoint*, and call `detectExposure`.  Any exception is
caught and turned into `{summaries: [], lastCheckedPeriod: null}`.  Returns
the summaries, the `lastCheckedPeriod` value, and the (possibly updated)
status. -/
def getSummariesFromEnFramework (env : CheckEnv) (st : ExposureStatus) :
    List ExposureSummary × FinalizeArg × ExposureStatus :=
  match env.pendingSummaries with
  | .error _ => ([], .nullv, st)
  | .ok pending =>
    match pending with
    | some (p :: ps) =>
      ((p :: ps), .obj ⟨.num (periodSinceEpoch env.now), env.now⟩, st)
    | _ =>
      let st1 := updateExposure env st
      let keysAndLastChecked := getKeys env (statusLastChecked st)
      match env.detectExposure keysAndLastChecked.1 with
      | .error _ => ([], .nullv, st1)
      | .ok summaries =>
        (summaries,
          (match keysAndLastChecked.2 with
            | none => .undef
            | some lc => .obj lc),
          st1)

/-- Model of `performExposureCheck()`: resolve the summaries, filter and rank them, and
either `setToExposed` on the best one or finalize as-is.  (Configuration
resolution is modelled separately; `env.minimumExposureDurationMinutes` is
the resolved threshold.) -/
def performExposureCheck (env : CheckEnv) (st : ExposureStatus) :
    ExposureStatus :=
  let r := getSummariesFromEnFramework env st
  match summariesContainingExposures env.platform
      env.minimumExposureDurationMinutes r.1 with
  | [] => finalizeNoop env r.2.2
  | best :: _ => setToExposed env r.2.2 best r.2.1

/-! ## The configuration resolver (`getExposureConfiguration`) -/

/-- The exposure configuration; only the field the pipeline reads is kept,
the rest of the JSON object is opaque to the service. -/
structure ExposureConfiguration where
  minimumExposureDurationMinutes : ℤ
deriving DecidableEq

/-- The environment of one configuration resolution. -/
structure ConfigEnv where
  /-- Model of `backendInterface.getExposureConfiguration()`; `.error` = throws
  (network error or JSON parse error). -/
  remote : Except Unit ExposureConfiguration
  /-- Schema validation: `false` means
  `validateExposureConfiguration` throws `ExposureConfigurationValidationError`. -/
  valid : ExposureConfiguration → Bool
  /-- Model of `storage.getItem(EXPOSURE_CONFIGURATION)`. -/
  cached : Option String
  /-- Model of `JSON.parse` of the cached string; `none` = throws. -/
  parse : String → Option ExposureConfiguration
  /-- Model of `exposureConfigurationDefault`, bundled with the app. -/
  defaultConfig : ExposureConfiguration

/-- Model of `getAlternateExposureConfiguration()`: parse the cached configuration if
one is stored; any failure (no cache, unparseable cache) falls back to the
bundled default. -/
def getAlternateExposureConfiguration (e : ConfigEnv) : ExposureConfiguration :=
  match e.cached with
  | some s =>
    match e.parse s with
    | some c => c
    | none => e.defaultConfig
  | none => e.defaultConfig

/-- Model of `getExposureConfiguration()`: fetch and validate the remote
configuration, caching it on success; on any failure fall back to
`getAlternateExposureConfiguration`. -/
def getExposureConfiguration (e : ConfigEnv) : ExposureConfiguration :=
  match e.remote with
  | .ok c => if e.valid c then c else getAlternateExposureConfiguration e
  | .error _ => getAlternateExposureConfiguration e

/-! ## Key submission (`fetchAndSubmitKeys`, `recordKeySubmission`) -/

/-- How a `fetchAndSubmitKeys` run can fail. -/
inductive SubmitError where
  /-- Model of `throw new Error('Submission keys: bad certificate')`. -/
  | badCertificate : SubmitError
  /-- Model of `throw cannotGetTEKsError`. -/
  | cannotGetTEKs : SubmitError
  /-- Model of `backendInterface.reportDiagnosisKeys` rejected (propagated as-is). -/
  | backendError : SubmitError
deriving DecidableEq

/-- The environment of one key-submission run. -/
structure SubmitEnv where
  now : ℤ
  /-- Model of `secureStorage.get(SUBMISSION_AUTH_KEYS)`. -/
  storedAuth : Option String
  /-- Model of `exposureNotification.getTemporaryExposureKeyHistory()`;
  `.error` = throws. -/
  tekHistory : Except Unit (List String)
  /-- Model of `backendInterface.reportDiagnosisKeys(...)`; `.error` = rejects. -/
  reportResult : Except Unit Unit

/-- Model of `recordKeySubmission()`: a no-op unless `Diagnosed`; then clear
`needsSubmission` and stamp `submissionLastCompletedAt = now`. -/
def recordKeySubmission (now : ℤ) (st : ExposureStatus) : ExposureStatus :=
  match st with
  | .diagnosed _ _ url cs ce lc =>
    .diagnosed false (some now) url cs ce lc
  | other => other

/-- Model of `fetchAndSubmitKeys(contagiousDateInfo)`: require the stored submission
credential; retrieve the device's temporary exposure keys (a distinct
error); upload only when at least one key is available; always record
completion on the non-failing paths.  The boolean in the result tells
whether `reportDiagnosisKeys` was called. -/
def fetchAndSubmitKeys (e : SubmitEnv) (st : ExposureStatus) :
    Except SubmitError (ExposureStatus × Bool) :=
  match e.storedAuth with
  | none => .error .badCertificate
  | some _ =>
    match e.tekHistory with
    | .error _ => .error .cannotGetTEKs
    | .ok temporaryExposureKeys =>
      if temporaryExposureKeys.length > 0 then
        match e.reportResult with
        | .error _ => .error .backendError
        | .ok _ => .ok (recordKeySubmission e.now st, true)
      else .ok (recordKeySubmission e.now st, false)

/-! ## The single-flight guard (`updateExposureStatus`)

`updateExposureStatus` caches the in-flight check in
`exposureStatusUpdatePromise`: a call while one is cached returns the cached
promise; otherwise it starts `performExposureCheck` and attaches
`cleanUpPromise` to both the fulfilment and the rejection path, so the slot
is cleared when the check settles either way.  The promise machinery is
modelled as a state machine: `inFlight` is the nullable slot (promises are
identified by creation number, callers resolving to the same number share
the same result), `started` counts how many times `performExposureCheck` —
and with it the external capability — has been invoked. -/

structure FlightState where
  inFlight : Option ℕ
  started : ℕ
  nextId : ℕ
deriving DecidableEq

/-- One call to `updateExposureStatus`: return the cached promise if one is in
flight, else start a fresh check.  Yields the new state and the promise the
caller awaits. -/
def stepCall (s : FlightState) : FlightState × ℕ :=
  match s.inFlight with
  | some p => (s, p)
  | none =>
    (⟨some s.nextId, s.started + 1, s.nextId + 1⟩, s.nextId)

/-- The in-flight check settling (fulfilment or rejection): `cleanUpPromise`
nulls the slot in both cases. -/
def stepComplete (s : FlightState) : FlightState :=
  { s with inFlight := none }

/-- A burst of `n` consecutive calls to `updateExposureStatus` with no
settlement in between; yields the final state and the promises handed to the
callers, in order. -/
def runCalls : ℕ → FlightState → FlightState × List ℕ
  | 0, s => (s, [])
  | n + 1, s =>
    let r := stepCall s
    let r2 := runCalls n r.1
    (r2.1, r.2 :: r2.2)

/-! ## Auxiliary definitions used by the statements -/

/-- Descending run of `n` consecutive integers starting at `hi`:
`[hi, hi-1, ...]`. -/
def descPeriodsGo : ℕ → ℤ → List ℤ
  | 0, _ => []
  | n + 1, hi => hi :: descPeriodsGo n (hi - 1)

/-- The descending list of periods `hi, hi-1, ..., lo+1` (empty when
`hi ≤ lo`): the periods the key-fetch loop visits, most recent first. -/
def descPeriods (hi lo : ℤ) : List ℤ :=
  descPeriodsGo (hi - lo).toNat hi

/-- A status with its `lastChecked` checkpoint erased, for comparing the
non-checkpoint fields of two statuses. -/
def stripLastChecked : ExposureStatus → ExposureStatus
  | .monitoring _ => .monitoring none
  | .exposed s n _ => .exposed s n none
  | .diagnosed ns slc url cs ce _ => .diagnosed ns slc url cs ce none

/-! ## Concrete fixtures for counterexamples and witnesses -/

/-- A clock in the UTC timezone: the local calendar day equals the UTC
calendar day. -/
def utcClock : Clock :=
  ⟨fun ms => Int.fdiv ms 86400000, fun ms => Int.fdiv ms 86400000⟩

/-- A clock in the UTC-12 timezone: the local calendar day is the UTC day of
the instant twelve hours earlier. -/
def tzClock : Clock :=
  ⟨fun ms => Int.fdiv ms 86400000, fun ms => Int.fdiv (ms - 43200000) 86400000⟩

/-- A check environment for a device in UTC-12 at 02:00 UTC of day 10; the
collaborators find nothing. -/
def envC1cx : CheckEnv :=
  { clock := tzClock, now := 871200000, platform := .android,
    minimumExposureDurationMinutes := 15,
    retrieveDiagnosisKeys := fun _ => none,
    pendingSummaries := .ok none,
    detectExposure := fun _ => .ok [],
    storedLastExposureTimestamp := none }

/-- A diagnosed status whose cycle ends at 23:00 UTC of day 10: over in UTC
(same UTC day as `envC1cx.now`), not yet over in the device's UTC-12 local
time. -/
def stC1cx : ExposureStatus := .diagnosed true none none 0 946800000 none

/-- A diagnosed status whose cycle ended on day 8, before `envC1cx.now`, in
local time as well. -/
def stC1w : ExposureStatus := .diagnosed true none none 0 800000000 none

/-- A check environment whose `getPendingExposureSummary` call throws. -/
def envC2cx : CheckEnv :=
  { clock := utcClock, now := 200, platform := .android,
    minimumExposureDurationMinutes := 15,
    retrieveDiagnosisKeys := fun _ => none,
    pendingSummaries := .error (),
    detectExposure := fun _ => .ok [],
    storedLastExposureTimestamp := none }

/-- A monitoring status checkpointed at period 5, timestamp 100. -/
def stC2cx : ExposureStatus := .monitoring (some ⟨.num 5, 100⟩)

/-- An arbitrary check environment for exercising `setToExposed`. -/
def envC3w : CheckEnv :=
  { clock := utcClock, now := 500, platform := .android,
    minimumExposureDurationMinutes := 15,
    retrieveDiagnosisKeys := fun _ => none,
    pendingSummaries := .ok none,
    detectExposure := fun _ => .ok [],
    storedLastExposureTimestamp := none }

/-- A check environment at day 10 where every period fetch succeeds and the
matcher reports one 20-minute exposure. -/
def envC4cx : CheckEnv :=
  { clock := utcClock, now := 864000000, platform := .android,
    minimumExposureDurationMinutes := 15,
    retrieveDiagnosisKeys := fun _ => some "k",
    pendingSummaries := .ok none,
    detectExposure := fun _ => .ok [⟨[20, 0, 0], 99⟩],
    storedLastExposureTimestamp := none }

/-- The stored checkpoint of `envC4cx`'s run: period 5, timestamp 1. -/
def lcC4 : LastChecked := ⟨.num 5, 1⟩

/-- A check environment at day 6 whose period-4 fetch fails and whose other
period fetches succeed. -/
def envC6w : CheckEnv :=
  { clock := utcClock, now := 518400000, platform := .android,
    minimumExposureDurationMinutes := 15,
    retrieveDiagnosisKeys := fun q => if q = 4 then none else some "u",
    pendingSummaries := .ok none,
    detectExposure := fun _ => .ok [],
    storedLastExposureTimestamp := none }

/-- A configuration environment whose remote fetch succeeds but fails schema
validation, with no cached copy. -/
def cfgEnvW : ConfigEnv :=
  { remote := .ok ⟨15⟩, valid := fun _ => false, cached := none,
    parse := fun _ => none, defaultConfig := ⟨21⟩ }

/-- A check environment whose durable last-exposure timestamp is exactly 14
days (in device-local time) before now. -/
def envC8a : CheckEnv :=
  { clock := utcClock, now := 1209600000, platform := .android,
    minimumExposureDurationMinutes := 15,
    retrieveDiagnosisKeys := fun _ => none,
    pendingSummaries := .ok none,
    detectExposure := fun _ => .ok [],
    storedLastExposureTimestamp := some 0 }

/-- A check environment whose durable last-exposure timestamp is exactly 13
days (in device-local time) before now. -/
def envC8b : CheckEnv :=
  { clock := utcClock, now := 1123200000, platform := .android,
    minimumExposureDurationMinutes := 15,
    retrieveDiagnosisKeys := fun _ => none,
    pendingSummaries := .ok none,
    detectExposure := fun _ => .ok [],
    storedLastExposureTimestamp := some 0 }

/-- An exposed status used to exercise the aging transition. -/
def stC8 : ExposureStatus := .exposed ⟨[0, 0, 0], 1⟩ false none

/-- A submission environment with a stored credential and an empty
temporary-exposure-key history. -/
def subEnvW : SubmitEnv :=
  { now := 77, storedAuth := some "auth", tekHistory := .ok [],
    reportResult := .ok () }

/-- A diagnosed status awaiting submission. -/
def stC9 : ExposureStatus := .diagnosed true none none 0 10 none

/-! ## Rounding bridge -/

/-- The iOS case of `exposureDurationRoundedMinutes` is exactly
`Math.round((a0 + a1) / 60)` over the rationals. -/
theorem exposureDurationRoundedMinutes_ios (summary : ExposureSummary) :
    exposureDurationRoundedMinutes .ios summary =
      round (((summary.attenuationDurations.getD 0 0 +
        summary.attenuationDurations.getD 1 0 : ℤ) : ℚ) / 60) := by
  rw [exposureDurationRoundedMinutes, round_eq]
  set n : ℤ := summary.attenuationDurations.getD 0 0 +
    summary.attenuationDurations.getD 1 0 with hn
  have h : (n : ℚ) / 60 + 1/2 = ((n * 2 + 60 : ℤ) : ℚ) / ((120 : ℕ) : ℚ) := by
    push_cast; ring
  rw [h, Rat.floor_intCast_div_natCast, Int.fdiv_eq_ediv _ (by norm_num)]
  norm_num

/-! ## Sorting lemmas -/

/-- Membership in `insertByTimestampDesc`. -/
theorem mem_insertByTimestampDesc {a x : ExposureSummary} :
    ∀ {l : List ExposureSummary},
      x ∈ insertByTimestampDesc a l ↔ x = a ∨ x ∈ l
  | [] => by simp [insertByTimestampDesc]
  | b :: bs => by
    rw [insertByTimestampDesc]
    by_cases h : b.lastExposureTimestamp < a.lastExposureTimestamp
    · simp [h]
    · simp only [if_neg h, List.mem_cons, mem_insertByTimestampDesc]
      tauto

/-- Membership in `sortByTimestampDesc`. -/
theorem mem_sortByTimestampDesc {x : ExposureSummary} :
    ∀ {l : List ExposureSummary}, x ∈ sortByTimestampDesc l ↔ x ∈ l
  | [] => by simp [sortByTimestampDesc]
  | a :: as => by
    rw [sortByTimestampDesc, mem_insertByTimestampDesc,
      mem_sortByTimestampDesc, List.mem_cons]

/-- Inserting into a list that is descending by last-exposure timestamp keeps
it descending. -/
theorem pairwise_insertByTimestampDesc {a : ExposureSummary} :
    ∀ {l : List ExposureSummary},
      l.Pairwise (fun s t => t.lastExposureTimestamp ≤ s.lastExposureTimestamp) →
      (insertByTimestampDesc a l).Pairwise
        (fun s t => t.lastExposureTimestamp ≤ s.lastExposureTimestamp)
  | [], _ => by simp [insertByTimestampDesc]
  | b :: bs, h => by
    rw [List.pairwise_cons] at h
    rw [insertByTimestampDesc]
    by_cases hc : b.lastExposureTimestamp < a.lastExposureTimestamp
    · rw [if_pos hc, List.pairwise_cons]
      refine ⟨fun x hx => ?_, List.pairwise_cons.mpr h⟩
      rcases List.mem_cons.mp hx with rfl | hx
      · exact le_of_lt hc
      · exact le_trans (h.1 x hx) (le_of_lt hc)
    · rw [if_neg hc, List.pairwise_cons]
      refine ⟨fun x hx => ?_, pairwise_insertByTimestampDesc h.2⟩
      rcases mem_insertByTimestampDesc.mp hx with rfl | hx
      · exact not_lt.mp hc
      · exact h.1 x hx

/-- The output of `sortByTimestampDesc` is descending by last-exposure
timestamp. -/
theorem pairwise_sortByTimestampDesc :
    ∀ (l : List ExposureSummary),
      (sortByTimestampDesc l).Pairwise
        (fun s t => t.lastExposureTimestamp ≤ s.lastExposureTimestamp)
  | [] => by simp [sortByTimestampDesc]
  | a :: as => by
    rw [sortByTimestampDesc]
    exact pairwise_insertByTimestampDesc (pairwise_sortByTimestampDesc as)

/-! ## Claim C5 -/

/-- C5, counterexample: with threshold `T = -1` (nonzero, hence truthy) the
zero-duration summary survives `summariesContainingExposures` although
`T > 0` fails, so "survives iff `D ≥ T` and `T > 0`" is false as stated. -/
theorem c5_counterexample :
    summariesContainingExposures .android (-1) [⟨[0, 0, 0], 5⟩] =
      [⟨[0, 0, 0], 5⟩] ∧ ¬((-1 : ℤ) > 0) :=
  ⟨by decide, by decide⟩

/-- C5 (amended): for every summary list and every threshold `T`, a summary
with combined immediate+near attenuation-bucket duration rounding to `D`
minutes (bucket values divided by 60 on iOS, taken as-is on Android) survives
`summariesContainingExposures` iff `D ≥ T` and `T ≠ 0` (the source's truthy
check, rather than `T > 0`), and the surviving summaries are sorted
descending by last-exposure timestamp. -/
theorem c5_filter_iff_and_sorted (os : Os) (T : ℤ)
    (summaries : List ExposureSummary) :
    (∀ s, s ∈ summariesContainingExposures os T summaries ↔
      (s ∈ summaries ∧ T ≠ 0 ∧ T ≤ exposureDurationRoundedMinutes os s))
    ∧ (summariesContainingExposures os T summaries).Pairwise
        (fun s t => t.lastExposureTimestamp ≤ s.lastExposureTimestamp) := by
  constructor
  · intro s
    rw [summariesContainingExposures, mem_sortByTimestampDesc, List.mem_filter]
    simp [summaryExceedsMinimumMinutes, and_assoc]
  · exact pairwise_sortByTimestampDesc _

/-! ## Claim C6 -/

/-- The fetch loop visits exactly the periods of the descending range,
keeping the successful fetches. -/
theorem keysLoopGo_eq_filterMap (fetch : ℤ → Option String) :
    ∀ (n : ℕ) (running : ℤ),
      keysLoopGo fetch n running =
        (descPeriodsGo n running).filterMap
          (fun q => (fetch q).map fun u => ⟨u, q⟩)
  | 0, _ => rfl
  | n + 1, running => by
    simp only [keysLoopGo, descPeriodsGo, List.filterMap_cons,
      keysLoopGo_eq_filterMap fetch n (running - 1)]
    cases fetch running <;> simp

/-- Membership in the descending range. -/
theorem mem_descPeriodsGo :
    ∀ {n : ℕ} {hi q : ℤ}, q ∈ descPeriodsGo n hi ↔ hi - n < q ∧ q ≤ hi
  | 0, hi, q => by
    simp only [descPeriodsGo, List.not_mem_nil, false_iff]
    omega
  | n + 1, hi, q => by
    simp only [descPeriodsGo, List.mem_cons, mem_descPeriodsGo (n := n)]
    omega

/-- The descending range is strictly decreasing. -/
theorem pairwise_descPeriodsGo :
    ∀ (n : ℕ) (hi : ℤ), (descPeriodsGo n hi).Pairwise (fun a b => b < a)
  | 0, _ => by simp [descPeriodsGo]
  | n + 1, hi => by
    rw [descPeriodsGo, List.pairwise_cons]
    refine ⟨fun q hq => ?_, pairwise_descPeriodsGo n (hi - 1)⟩
    have h := mem_descPeriodsGo.mp hq
    omega

/-- C6: the period key fetcher yields key-file handles most-recent-first,
exactly the successful fetches over the periods strictly greater than
`max(lastCheckedPeriod - 1, currentPeriod - 14)` (each per-period failure is
skipped and the sequence continues), and with no numeric checkpoint it
fetches only the single current-period batch. -/
theorem c6_keysSinceLastFetch (env : CheckEnv) (n : ℤ) (hn : n ≠ 0) :
    keysSinceLastFetch env (some (.num n)) =
      (descPeriods (periodSinceEpoch env.now)
        (max (n - 1)
          (periodSinceEpoch env.now - EXPOSURE_NOTIFICATION_CYCLE))).filterMap
        (fun q => (env.retrieveDiagnosisKeys q).map fun u => ⟨u, q⟩)
    ∧ (keysSinceLastFetch env (some (.num n))).Pairwise
        (fun a b => b.period < a.period)
    ∧ (∀ kf ∈ keysSinceLastFetch env (some (.num n)),
        max (n - 1) (periodSinceEpoch env.now - EXPOSURE_NOTIFICATION_CYCLE) <
          kf.period)
    ∧ (keysSinceLastFetch env none).length ≤ 1
    ∧ (∀ kf ∈ keysSinceLastFetch env none,
        kf.period = periodSinceEpoch env.now) := by
  have heq : keysSinceLastFetch env (some (.num n)) =
      (descPeriods (periodSinceEpoch env.now)
        (max (n - 1)
          (periodSinceEpoch env.now - EXPOSURE_NOTIFICATION_CYCLE))).filterMap
        (fun q => (env.retrieveDiagnosisKeys q).map fun u => ⟨u, q⟩) := by
    rw [keysSinceLastFetch]
    simp only [hn, if_false, keysLoop, descPeriods]
    exact keysLoopGo_eq_filterMap env.retrieveDiagnosisKeys _ _
  refine ⟨heq, ?_, ?_, ?_, ?_⟩
  · rw [heq, descPeriods, List.pairwise_filterMap]
    refine (pairwise_descPeriodsGo _ _).imp ?_
    intro a b hab x hx y hy
    cases ha : env.retrieveDiagnosisKeys a with
    | none => rw [ha] at hx; exact absurd hx (by simp)
    | some u =>
      cases hb : env.retrieveDiagnosisKeys b with
      | none => rw [hb] at hy; exact absurd hy (by simp)
      | some v =>
        rw [ha] at hx
        rw [hb] at hy
        have hx2 : some (KeyFile.mk u a) = some x := hx
        have hy2 : some (KeyFile.mk v b) = some y := hy
        cases hx2
        cases hy2
        simpa using hab
  · intro kf hkf
    rw [heq, List.mem_filterMap] at hkf
    obtain ⟨q, hq, hfq⟩ := hkf
    rw [descPeriods] at hq
    have hmem := mem_descPeriodsGo.mp hq
    have hper : kf.period = q := by
      cases ha : env.retrieveDiagnosisKeys q with
      | none => rw [ha] at hfq; exact absurd hfq (by simp)
      | some u =>
        rw [ha] at hfq
        have hfq2 : some (KeyFile.mk u q) = some kf := hfq
        cases hfq2
        rfl
    omega
  · rw [keysSinceLastFetch, keysBootstrap]
    cases env.retrieveDiagnosisKeys 0 <;> simp
  · intro kf hkf
    rw [keysSinceLastFetch, keysBootstrap] at hkf
    cases h0 : env.retrieveDiagnosisKeys 0 with
    | none => rw [h0] at hkf; exact absurd hkf (by simp)
    | some u =>
      rw [h0] at hkf
      have : kf = ⟨u, periodSinceEpoch env.now⟩ := by simpa using hkf
      rw [this]

/-- C6, witness: checkpoint period 3 at current period 6, with the period-4
fetch failing: the yielded periods are exactly `[6, 5, 3]`, descending and
all above `max(3 - 1, 6 - 14) = 2`. -/
theorem c6_keysSinceLastFetch_witness :
    (keysSinceLastFetch envC6w (some (.num 3))).map (fun kf => kf.period) =
      [6, 5, 3]
    ∧ (keysSinceLastFetch envC6w (some (.num 3))).Pairwise
        (fun a b => b.period < a.period)
    ∧ (∀ kf ∈ keysSinceLastFetch envC6w (some (.num 3)),
        max ((3 : ℤ) - 1)
          (periodSinceEpoch envC6w.now - EXPOSURE_NOTIFICATION_CYCLE) <
          kf.period) :=
  ⟨by decide, (c6_keysSinceLastFetch envC6w 3 (by decide)).2.1,
    (c6_keysSinceLastFetch envC6w 3 (by decide)).2.2.1⟩

/-! ## Claim C1 -/

/-- C1, counterexample: a diagnosed status whose cycle end is on/before today
in UTC (`daysBetweenUTC(today, cycleEndsAt) ≤ 0`) but still ahead in the
device's local timezone: the next check — both the maintenance step and the
full pipeline — leaves the status `Diagnosed`, not `Monitoring`. -/
theorem c1_utc_cycle_end_counterexample :
    daysBetweenUTC envC1cx.clock envC1cx.now 946800000 ≤ 0
    ∧ isDiagnosed (updateExposure envC1cx stC1cx) = true
    ∧ isMonitoring (performExposureCheck envC1cx stC1cx) = false :=
  ⟨by decide, by decide, by decide⟩

/-- C1 (amended): for every `Diagnosed` status whose cycle has ended in
*device-local* time (`daysBetween(today, cycleEndsAt) ≤ 0`), the maintenance
step of the next exposure check transitions the status to `Monitoring`
(keeping the previous checkpoint period and stamping a fresh timestamp),
regardless of the other `Diagnosed` fields. -/
theorem c1_local_cycle_end_to_monitoring (env : CheckEnv) (ns : Bool)
    (slc url : Option ℤ) (cs ce : ℤ) (lc : Option LastChecked)
    (h : daysBetween env.clock env.now ce ≤ 0) :
    updateExposure env (.diagnosed ns slc url cs ce lc) =
      .monitoring
        (some ⟨defaultPeriod (.diagnosed ns slc url cs ce lc), env.now⟩)
    ∧ ((env.pendingSummaries = .ok none ∨ env.pendingSummaries = .ok (some [])) →
      ∀ summaries, env.detectExposure
          (getKeys env
            (statusLastChecked (.diagnosed ns slc url cs ce lc))).1 =
          .ok summaries →
        summariesContainingExposures env.platform
          env.minimumExposureDurationMinutes summaries = [] →
        isMonitoring
          (performExposureCheck env (.diagnosed ns slc url cs ce lc)) =
          true) := by
  have hup : updateExposure env (.diagnosed ns slc url cs ce lc) =
      .monitoring
        (some ⟨defaultPeriod (.diagnosed ns slc url cs ce lc), env.now⟩) := by
    simp only [updateExposure, if_pos h, setToMonitoring]
  refine ⟨hup, ?_⟩
  intro hp summaries hdet hfil
  rcases hp with hp | hp <;>
    simp only [performExposureCheck, getSummariesFromEnFramework, hp, hdet,
      hfil, hup, finalizeNoop, isMonitoring]

/-- C1, witness: a cycle that ended the previous local day resets to
`Monitoring` on the next maintenance step, and the full check finalizes to
`Monitoring`. -/
theorem c1_local_cycle_end_witness :
    daysBetween envC1cx.clock envC1cx.now 800000000 ≤ 0
    ∧ updateExposure envC1cx (.diagnosed true none none 0 800000000 none) =
        .monitoring (some ⟨.num 0, envC1cx.now⟩)
    ∧ isMonitoring
        (performExposureCheck envC1cx
          (.diagnosed true none none 0 800000000 none)) = true :=
  ⟨by decide,
    (c1_local_cycle_end_to_monitoring envC1cx true none none 0 800000000 none
      (by decide)).1,
    (c1_local_cycle_end_to_monitoring envC1cx true none none 0 800000000 none
      (by decide)).2 (Or.inl rfl) [] rfl (by decide)⟩

/-! ## Claim C8 -/

/-- C8: an `Exposed` status transitions to `Monitoring` on the maintenance
step iff the durable (side-channel) last-exposure timestamp is at least 14
days in the past, measured in device-local time. -/
theorem c8_exposed_aging_iff (env : CheckEnv) (summary : ExposureSummary)
    (notif : Bool) (lc : Option LastChecked) (ts : ℤ)
    (h : env.storedLastExposureTimestamp = some ts) :
    (isMonitoring (updateExposure env (.exposed summary notif lc)) = true ↔
      14 ≤ daysBetween env.clock ts env.now) := by
  simp only [updateExposure, getStoredLastExposureTimestamp, h]
  by_cases hd : EXPOSURE_NOTIFICATION_CYCLE ≤ daysBetween env.clock ts env.now
  · rw [if_pos hd]
    simp only [EXPOSURE_NOTIFICATION_CYCLE] at hd
    simp [setToMonitoring, isMonitoring, hd]
  · rw [if_neg hd]
    simp only [EXPOSURE_NOTIFICATION_CYCLE] at hd
    simp [isMonitoring, hd]

/-- C8, witness: a durable last-exposure timestamp exactly 14 local days old
transitions to `Monitoring`; exactly 13 days old does not. -/
theorem c8_exposed_aging_witness :
    envC8a.storedLastExposureTimestamp = some 0
    ∧ isMonitoring (updateExposure envC8a stC8) = true
    ∧ isMonitoring (updateExposure envC8b stC8) = false := by
  refine ⟨rfl, ?_, ?_⟩
  · exact (c8_exposed_aging_iff envC8a ⟨[0, 0, 0], 1⟩ false none 0 rfl).mpr
      (by decide)
  · cases hm : isMonitoring (updateExposure envC8b stC8) with
    | false => rfl
    | true =>
      have h14 :=
        (c8_exposed_aging_iff envC8b ⟨[0, 0, 0], 1⟩ false none 0 rfl).mp hm
      exact absurd h14 (by decide)

/-! ## Claim C3 -/

/-- C3: a transition into `Exposed` through `setToExposed` preserves an
already-active `Exposed` summary; the incoming summary is stored only when
the prior status is not `Exposed`. -/
theorem c3_exposed_summary_preserved (env : CheckEnv) (st : ExposureStatus)
    (next : ExposureSummary) (arg : FinalizeArg) :
    (∀ s0, statusSummary st = some s0 →
      statusSummary (setToExposed env st next arg) = some s0)
    ∧ (statusSummary st = none →
      statusSummary (setToExposed env st next arg) = some next) := by
  cases st <;> simp [setToExposed, selectExposureSummary, statusSummary]

/-- C3, witness: from an `Exposed` status the old summary survives the
transition; from `Monitoring` the incoming one is stored. -/
theorem c3_exposed_summary_witness :
    statusSummary (setToExposed envC3w (.exposed ⟨[1, 2, 3], 7⟩ false none)
        ⟨[9, 9, 9], 8⟩ .undef) = some ⟨[1, 2, 3], 7⟩
    ∧ statusSummary (setToExposed envC3w (.monitoring none)
        ⟨[9, 9, 9], 8⟩ .undef) = some ⟨[9, 9, 9], 8⟩ :=
  ⟨(c3_exposed_summary_preserved envC3w _ _ _).1 _ rfl,
    (c3_exposed_summary_preserved envC3w _ _ _).2 rfl⟩

/-! ## Claim C4 -/

/-- C4 fails on the code: draining the key-fetch sequence from checkpoint
period 5 at current period 10 with every fetch succeeding, the drain loop
*computes* the maximum period seen (10) into a local variable but `getKeys`
returns the original checkpoint (period 5) unchanged, and the subsequent
commit stores the old checkpoint *object* — not the number 10 — into
`lastChecked.period`. -/
theorem c4_checkpoint_candidate_discarded :
    (getKeys envC4cx (some lcC4)).2 = some lcC4
    ∧ getKeysTracked envC4cx (some lcC4) = 10
    ∧ lcC4.period = .num 5
    ∧ statusLastChecked (performExposureCheck envC4cx (.monitoring (some lcC4))) =
        some ⟨.obj (.num 5) 1, envC4cx.now⟩ :=
  ⟨by decide, by decide, by decide, by decide⟩

/-! ## Claim C2 -/

/-- JavaScript `|| 0` is idempotent on period values. -/
theorem jsPeriodOr0_idem (p : PeriodValue) :
    jsPeriodOr0 (jsPeriodOr0 p) = jsPeriodOr0 p := by
  cases p <;> rfl

/-- The default period is a fixed point of `|| 0`. -/
theorem jsPeriodOr0_defaultPeriod (st : ExposureStatus) :
    jsPeriodOr0 (defaultPeriod st) = defaultPeriod st := by
  rw [defaultPeriod]
  cases statusLastChecked st with
  | none => rfl
  | some lc => exact jsPeriodOr0_idem lc.period

/-- A no-op finalize stamps the previous period and the current timestamp. -/
theorem statusLastChecked_finalizeNoop (env : CheckEnv) (st : ExposureStatus) :
    statusLastChecked (finalizeNoop env st) = some ⟨defaultPeriod st, env.now⟩ := by
  cases st <;> rfl

/-- A no-op finalize preserves the checkpoint period. -/
theorem defaultPeriod_finalizeNoop (env : CheckEnv) (st : ExposureStatus) :
    defaultPeriod (finalizeNoop env st) = defaultPeriod st := by
  rw [defaultPeriod, statusLastChecked_finalizeNoop]
  exact jsPeriodOr0_defaultPeriod st

/-- A no-op finalize preserves every non-checkpoint field. -/
theorem stripLastChecked_finalizeNoop (env : CheckEnv) (st : ExposureStatus) :
    stripLastChecked (finalizeNoop env st) = stripLastChecked st := by
  cases st <;> rfl

/-- Resetting to `Monitoring` keeps the previous checkpoint period. -/
theorem defaultPeriod_setToMonitoring (env : CheckEnv) (st : ExposureStatus) :
    defaultPeriod (setToMonitoring env st) = defaultPeriod st := by
  rw [setToMonitoring, defaultPeriod]
  exact jsPeriodOr0_defaultPeriod st

/-- The maintenance step never moves the checkpoint period. -/
theorem defaultPeriod_updateExposure (env : CheckEnv) (st : ExposureStatus) :
    defaultPeriod (updateExposure env st) = defaultPeriod st := by
  cases st with
  | monitoring lc => rfl
  | diagnosed ns slc url cs ce lc =>
    rw [updateExposure]
    by_cases h : daysBetween env.clock env.now ce ≤ 0
    · rw [if_pos h]
      exact defaultPeriod_setToMonitoring env _
    · rw [if_neg h, finalizeNeedsSubmission, defaultPeriod]
      exact jsPeriodOr0_defaultPeriod _
  | exposed s n lc =>
    cases hts : getStoredLastExposureTimestamp env (.exposed s n lc) with
    | none => simp only [updateExposure, hts]
    | some ts =>
      by_cases h : EXPOSURE_NOTIFICATION_CYCLE ≤ daysBetween env.clock ts env.now
      · simp only [updateExposure, hts, if_pos h]
        exact defaultPeriod_setToMonitoring env _
      · simp only [updateExposure, hts, if_neg h]

/-- C2 (amended): an exception inside the check pipeline yields an empty
summary set, and the check then finalizes with no summary selection: the
status is exactly the no-op finalize of the status the maintenance step
produced (of the unchanged status when the exception precedes the
maintenance step), so the checkpoint *period* stays where it was and every
non-checkpoint field is the maintenance step's — but the `lastChecked`
*timestamp* is refreshed to now, so the stored status is not literally
unchanged.  Nothing partially written ever appears. -/
theorem c2_exception_fail_safe (env : CheckEnv) (st : ExposureStatus) :
    (env.pendingSummaries = .error () →
      performExposureCheck env st = finalizeNoop env st
      ∧ statusLastChecked (performExposureCheck env st) =
          some ⟨defaultPeriod st, env.now⟩
      ∧ stripLastChecked (performExposureCheck env st) = stripLastChecked st
      ∧ defaultPeriod (performExposureCheck env st) = defaultPeriod st)
    ∧ ((env.pendingSummaries = .ok none ∨ env.pendingSummaries = .ok (some [])) →
      env.detectExposure (getKeys env (statusLastChecked st)).1 = .error () →
      performExposureCheck env st = finalizeNoop env (updateExposure env st)
      ∧ statusLastChecked (performExposureCheck env st) =
          some ⟨defaultPeriod st, env.now⟩
      ∧ stripLastChecked (performExposureCheck env st) =
          stripLastChecked (updateExposure env st)
      ∧ defaultPeriod (performExposureCheck env st) = defaultPeriod st) := by
  constructor
  · intro h
    have hmain : performExposureCheck env st = finalizeNoop env st := by
      simp only [performExposureCheck, getSummariesFromEnFramework, h,
        summariesContainingExposures, List.filter_nil, sortByTimestampDesc]
    rw [hmain]
    exact ⟨rfl, statusLastChecked_finalizeNoop env st,
      stripLastChecked_finalizeNoop env st, defaultPeriod_finalizeNoop env st⟩
  · intro hp hd
    have hmain : performExposureCheck env st =
        finalizeNoop env (updateExposure env st) := by
      rcases hp with h | h <;>
        simp only [performExposureCheck, getSummariesFromEnFramework, h, hd,
          summariesContainingExposures, List.filter_nil, sortByTimestampDesc]
    rw [hmain]
    refine ⟨rfl, ?_, stripLastChecked_finalizeNoop env _, ?_⟩
    · rw [statusLastChecked_finalizeNoop, defaultPeriod_updateExposure]
    · rw [defaultPeriod_finalizeNoop, defaultPeriod_updateExposure]

/-- C2, counterexample: a check whose `getPendingExposureSummary` call throws
still rewrites the stored status — the `lastChecked` timestamp moves from 100
to `now = 200` — so "the exposure status is left unchanged and the checkpoint
stays where it was" is false as stated. -/
theorem c2_status_unchanged_counterexample :
    envC2cx.pendingSummaries = .error ()
    ∧ performExposureCheck envC2cx stC2cx ≠ stC2cx
    ∧ performExposureCheck envC2cx stC2cx = .monitoring (some ⟨.num 5, 200⟩) :=
  ⟨rfl, by decide, by decide⟩

/-- C2, witness: on the throwing run of `envC2cx` the final status is the
no-op finalize: same fields, same checkpoint period 5, fresh timestamp. -/
theorem c2_exception_fail_safe_witness :
    performExposureCheck envC2cx stC2cx = finalizeNoop envC2cx stC2cx
    ∧ statusLastChecked (performExposureCheck envC2cx stC2cx) =
        some ⟨defaultPeriod stC2cx, envC2cx.now⟩
    ∧ stripLastChecked (performExposureCheck envC2cx stC2cx) =
        stripLastChecked stC2cx :=
  ⟨((c2_exception_fail_safe envC2cx stC2cx).1 rfl).1,
    ((c2_exception_fail_safe envC2cx stC2cx).1 rfl).2.1,
    ((c2_exception_fail_safe envC2cx stC2cx).1 rfl).2.2.1⟩

/-! ## Claim C7 -/

/-- C7: the configuration resolver is a total function that returns the
validated remote configuration when fetch and validation succeed, else the
parsed cached configuration when one is stored and parseable, else the
bundled default — in particular a schema-validation failure with no cache
yields the bundled default. -/
theorem c7_config_resolver_chain (e : ConfigEnv) :
    (∀ c, e.remote = .ok c → e.valid c = true → getExposureConfiguration e = c)
    ∧ (∀ c, e.remote = .ok c → e.valid c = false →
        getExposureConfiguration e = getAlternateExposureConfiguration e)
    ∧ (e.remote = .error () →
        getExposureConfiguration e = getAlternateExposureConfiguration e)
    ∧ (∀ s c, e.cached = some s → e.parse s = some c →
        getAlternateExposureConfiguration e = c)
    ∧ (∀ s, e.cached = some s → e.parse s = none →
        getAlternateExposureConfiguration e = e.defaultConfig)
    ∧ (e.cached = none → getAlternateExposureConfiguration e = e.defaultConfig)
    ∧ (∀ c, e.remote = .ok c → e.valid c = false → e.cached = none →
        getExposureConfiguration e = e.defaultConfig) := by
  refine ⟨?_, ?_, ?_, ?_, ?_, ?_, ?_⟩
  · intro c h hv
    simp [getExposureConfiguration, h, hv]
  · intro c h hv
    simp [getExposureConfiguration, h, hv]
  · intro h
    simp [getExposureConfiguration, h]
  · intro s c hc hp
    simp [getAlternateExposureConfiguration, hc, hp]
  · intro s hc hp
    simp [getAlternateExposureConfiguration, hc, hp]
  · intro hc
    simp [getAlternateExposureConfiguration, hc]
  · intro c h hv hc
    simp [getExposureConfiguration, getAlternateExposureConfiguration, h, hv, hc]

/-- C7, witness: remote fetch succeeds but fails schema validation and no
cache exists — the resolver returns the bundled default. -/
theorem c7_config_resolver_witness :
    cfgEnvW.valid ⟨15⟩ = false ∧ cfgEnvW.cached = none
    ∧ getExposureConfiguration cfgEnvW = cfgEnvW.defaultConfig :=
  ⟨rfl, rfl, (c7_config_resolver_chain cfgEnvW).2.2.2.2.2.2 ⟨15⟩ rfl rfl rfl⟩

/-! ## Claim C9 -/

/-- C9: `fetchAndSubmitKeys` fails with the bad-certificate error iff no
submission credential is stored; fails with the distinct `cannotGetTEKsError`
iff the credential is present but retrieving the temporary exposure keys
throws; skips the upload without error when zero keys are available; and
every non-failing run records submission completion (which, on a `Diagnosed`
status, clears `needsSubmission` and stamps `submissionLastCompletedAt`)
whether or not keys were uploaded. -/
theorem c9_fetchAndSubmitKeys_spec (e : SubmitEnv) (st : ExposureStatus) :
    (fetchAndSubmitKeys e st = .error .badCertificate ↔ e.storedAuth = none)
    ∧ (fetchAndSubmitKeys e st = .error .cannotGetTEKs ↔
        (e.storedAuth ≠ none ∧ e.tekHistory = .error ()))
    ∧ (∀ a, e.storedAuth = some a → e.tekHistory = .ok [] →
        fetchAndSubmitKeys e st = .ok (recordKeySubmission e.now st, false))
    ∧ (∀ st2 uploaded, fetchAndSubmitKeys e st = .ok (st2, uploaded) →
        st2 = recordKeySubmission e.now st)
    ∧ (∀ ns slc url cs ce lc,
        recordKeySubmission e.now (.diagnosed ns slc url cs ce lc) =
          .diagnosed false (some e.now) url cs ce lc) := by
  have h5 : ∀ (ns : Bool) (slc url : Option ℤ) (cs ce : ℤ)
      (lc : Option LastChecked),
      recordKeySubmission e.now (.diagnosed ns slc url cs ce lc) =
        .diagnosed false (some e.now) url cs ce lc := by
    intro ns slc url cs ce lc
    rfl
  cases ha : e.storedAuth with
  | none =>
    refine ⟨by simp [fetchAndSubmitKeys, ha], ?_, ?_, ?_, h5⟩
    · simp [fetchAndSubmitKeys, ha]
    · intro b hb
      simp at hb
    · intro st2 uploaded hok
      simp [fetchAndSubmitKeys, ha] at hok
  | some a =>
    cases ht : e.tekHistory with
    | error u =>
      refine ⟨?_, ?_, ?_, ?_, h5⟩
      · simp [fetchAndSubmitKeys, ha, ht]
      · simp [fetchAndSubmitKeys, ha, ht]
      · intro b _ htt
        simp at htt
      · intro st2 uploaded hok
        simp [fetchAndSubmitKeys, ha, ht] at hok
    | ok keys =>
      cases keys with
      | nil =>
        refine ⟨?_, ?_, ?_, ?_, h5⟩
        · simp [fetchAndSubmitKeys, ha, ht]
        · simp [fetchAndSubmitKeys, ha, ht]
        · intro b _ _
          simp [fetchAndSubmitKeys, ha, ht]
        · intro st2 uploaded hok
          simp [fetchAndSubmitKeys, ha, ht] at hok
          exact hok.1.symm
      | cons k ks =>
        cases hr : e.reportResult with
        | error u =>
          refine ⟨?_, ?_, ?_, ?_, h5⟩
          · simp [fetchAndSubmitKeys, ha, ht, hr]
          · simp [fetchAndSubmitKeys, ha, ht, hr]
          · intro b _ htt
            simp at htt
          · intro st2 uploaded hok
            simp [fetchAndSubmitKeys, ha, ht, hr] at hok
        | ok u =>
          refine ⟨?_, ?_, ?_, ?_, h5⟩
          · simp [fetchAndSubmitKeys, ha, ht, hr]
          · simp [fetchAndSubmitKeys, ha, ht, hr]
          · intro b _ htt
            simp at htt
          · intro st2 uploaded hok
            simp [fetchAndSubmitKeys, ha, ht, hr] at hok
            exact hok.1.symm

/-- C9, witness: with a stored credential, a `Diagnosed` status and an empty
key history, the run succeeds without uploading and records completion. -/
theorem c9_fetchAndSubmitKeys_witness :
    fetchAndSubmitKeys subEnvW stC9 =
      .ok (.diagnosed false (some 77) none 0 10 none, false) := by
  have h := (c9_fetchAndSubmitKeys_spec subEnvW stC9).2.2.1 "auth" rfl rfl
  simpa using h

/-! ## Claim C10 -/

/-- While a promise is cached, every call returns it and the state does not
move. -/
theorem runCalls_inFlight (p : ℕ) :
    ∀ (n : ℕ) (s : FlightState), s.inFlight = some p →
      runCalls n s = (s, List.replicate n p)
  | 0, s, _ => by simp [runCalls]
  | n + 1, s, h => by
    have hc : stepCall s = (s, p) := by
      rw [stepCall, h]
    rw [runCalls, hc]
    simp only []
    rw [runCalls_inFlight p n s h, List.replicate_succ]

/-- C10: from an idle state, a burst of `k + 1` calls to the top-level check
hands every caller the same promise and starts the underlying check (the
external-capability invocation) exactly once; settling the promise clears the
slot, and the next call gets a fresh promise and a second invocation. -/
theorem c10_single_flight (s : FlightState) (k : ℕ) (h : s.inFlight = none) :
    (runCalls (k + 1) s).2 = List.replicate (k + 1) s.nextId
    ∧ (runCalls (k + 1) s).1.started = s.started + 1
    ∧ (runCalls (k + 1) s).1.inFlight = some s.nextId
    ∧ (stepComplete (runCalls (k + 1) s).1).inFlight = none
    ∧ (stepCall (stepComplete (runCalls (k + 1) s).1)).2 = s.nextId + 1
    ∧ (stepCall (stepComplete (runCalls (k + 1) s).1)).1.started =
        s.started + 2 := by
  have hc : stepCall s =
      (⟨some s.nextId, s.started + 1, s.nextId + 1⟩, s.nextId) := by
    rw [stepCall, h]
  have hrun : runCalls (k + 1) s =
      ((⟨some s.nextId, s.started + 1, s.nextId + 1⟩ : FlightState),
        s.nextId :: List.replicate k s.nextId) := by
    rw [runCalls, hc]
    simp only []
    rw [runCalls_inFlight s.nextId k _ rfl]
  rw [hrun]
  exact ⟨by simp [List.replicate_succ], rfl, rfl, rfl, rfl, rfl⟩

/-- C10, witness: two calls from the fresh state share promise 0 with one
invocation; after settlement the next call gets promise 1 and the second
invocation. -/
theorem c10_single_flight_witness :
    (runCalls 2 ⟨none, 0, 0⟩).2 = [0, 0]
    ∧ (runCalls 2 ⟨none, 0, 0⟩).1.started = 1
    ∧ (stepCall (stepComplete (runCalls 2 ⟨none, 0, 0⟩).1)).2 = 1
    ∧ (stepCall (stepComplete (runCalls 2 ⟨none, 0, 0⟩).1)).1.started = 2 := by
  have h := c10_single_flight ⟨none, 0, 0⟩ 1 rfl
  exact ⟨by simpa using h.1, h.2.1, h.2.2.2.2.1, h.2.2.2.2.2⟩

end CovidAlert
